import Mathlib

/-!
Verification of the ofxpostern probe-cache-report pipeline.

The definitions below are a shallow embedding of `ofxpostern.py`:
* the identity deriver (`init`, lines 109-123): URL/fid/org → cache directory,
* the report renderer (`print_kv_list`, `print_header`, `report_cli_fi`,
  `report_cli_server`, `report_cli`),
* the session orchestrator (`send_profile_req` and the post-parse part of
  `main`).

Python strings are Lean `String`s; Python dicts of strings are association
lists with first-match lookup (`List.lookup`); Python exceptions are an
explicit `Except` monad where `except KeyError: pass` becomes a match that
catches exactly the `keyError` constructor; `print` calls accumulate a list
of output lines.
-/

namespace Ofxpostern

/-! ## Identity deriver (ofxpostern.py lines 84-123) -/

/-- Program name constant `PROGRAM_NAME = 'ofxpostern'`. -/
def PROGRAM_NAME : String := "ofxpostern"

/-- `DATA_DIR = '{}/.{}'.format(os.environ['HOME'], PROGRAM_NAME)`.
The home directory is an explicit parameter. -/
def DATA_DIR (home : String) : String := home ++ "/." ++ PROGRAM_NAME

/-- `FIS_DIR = '{}/{}'.format(DATA_DIR, 'fi')`. -/
def FIS_DIR (home : String) : String := DATA_DIR home ++ "/" ++ "fi"

/-- Everything after the first occurrence of `c`, and `[]` when `c` does not
occur: the `[2]` component of Python's `str.partition(c)`. -/
def afterFirst : List Char → Char → List Char
  | [], _ => []
  | x :: xs, c => if x = c then xs else afterFirst xs c

/-- Python's single-character `str.replace(c, d)` on the character list. -/
def replaceChar (c d : Char) (l : List Char) : List Char :=
  l.map (fun x => if x = c then d else x)

/-- `url_fname = server.ofxurl.partition('/')[2][1:].replace('/','_').replace('&','+')`
(ofxpostern.py line 117). -/
def urlFname (url : String) : String :=
  ⟨replaceChar '&' '+' (replaceChar '/' '_' ((afterFirst url.data '/').drop 1))⟩

/-- The final path segment `'{}-{}-{}'.format(url_fname, server.fid, server.org)`
of `FI_DIR_FMT` (ofxpostern.py lines 90 and 118). -/
def fiSegment (url fid org : String) : String :=
  urlFname url ++ "-" ++ fid ++ "-" ++ org

/-- `fi_dir = FI_DIR_FMT.format(url_fname, server.fid, server.org)`
(ofxpostern.py line 118): the derived per-identity cache directory. -/
def fiDir (home url fid org : String) : String :=
  FIS_DIR home ++ "/" ++ fiSegment url fid org

/-! ## Report renderer (ofxpostern.py lines 130-267) -/

/-- Python exceptions relevant to this module: `KeyError` from a dict lookup
and `ValueError` from `print_header`. -/
inductive PyErr where
  | keyError (key : String)
  | valueError (msg : String)
deriving DecidableEq

/-- Modelled from the spec: `ProfileResponse` (the `testofx.OFXFile` parse
result, absent from src/) exposes two mappings with optional string keys,
`signon` and `profile`; a mapping is an association list with first-match
lookup. -/
structure OFXFile where
  signon : List (String × String)
  profile : List (String × String)
deriving DecidableEq

/-- Python `d[k]` on a string dict: the value when present, `KeyError`
otherwise. -/
def dictGet (d : List (String × String)) (k : String) : Except PyErr String :=
  match d.lookup k with
  | some v => Except.ok v
  | none => Except.error (PyErr.keyError k)

/-- `print_header(msg, lvl)` (ofxpostern.py lines 130-144): two output lines,
the message and an underline, or `ValueError` for an unknown level. -/
def print_header (msg : String) (lvl : Nat) : Except PyErr (List String) :=
  if lvl = 1 then Except.ok [msg, ⟨List.replicate msg.length '#'⟩]
  else if lvl = 2 then Except.ok [msg, ⟨List.replicate msg.length '='⟩]
  else if lvl = 3 then Except.ok [msg, ⟨List.replicate msg.length '-'⟩]
  else Except.error (PyErr.valueError ("Unknown lvl: " ++ toString lvl))

/-- The `k_width` loop of `print_kv_list` (ofxpostern.py lines 154-157). -/
def kWidth (kvList : List (String × String)) : Nat :=
  kvList.foldl (fun w p => if p.1.length > w then p.1.length else w) 0

/-- Python's left-justifying string padding `'{:{w}}'.format(s, w)`. -/
def ljust (s : String) (w : Nat) : String :=
  s ++ ⟨List.replicate (w - s.length) ' '⟩

/-- `print_kv_list` (ofxpostern.py lines 147-160): one line per pair, in list
order, `'{:{}} {}'.format(k+':', k_width+1, v)`. -/
def print_kv_list (kvList : List (String × String)) : List String :=
  kvList.map (fun p => ljust (p.1 ++ ":") (kWidth kvList + 1) ++ " " ++ p.2)

/-- The `output` tuple of `report_cli_fi` (ofxpostern.py lines 195-200). -/
def fiOutput : List (String × String) :=
  [("FINAME", "Name"), ("ADDR1", "Address"), ("ADDR2", ""), ("ADDR3", "")]

/-- The name/address loop of `report_cli_fi` (ofxpostern.py lines 202-206):
per iteration, a lookup guarded by `try/except KeyError` appends a pair. -/
def fiAttemptLoop (p : List (String × String)) :
    List (String × String) → List (String × String) →
    Except PyErr (List (String × String))
  | [], acc => Except.ok acc
  | t :: rest, acc =>
    match dictGet p t.1 with
    | Except.ok v => fiAttemptLoop p rest (acc ++ [(t.2, v)])
    | Except.error (PyErr.keyError _) => fiAttemptLoop p rest acc
    | Except.error e => Except.error e

/-- The city/state/postalcode block of `report_cli_fi` (ofxpostern.py lines
208-216): one `try` around all three lookups, `except KeyError: pass`, the
variables initialized to the empty string — so a failure keeps the values
assigned so far. -/
def cityStatePostal (p : List (String × String)) :
    Except PyErr (String × String × String) :=
  match dictGet p "CITY" with
  | Except.error (PyErr.keyError _) => Except.ok ("", "", "")
  | Except.error e => Except.error e
  | Except.ok city =>
    match dictGet p "STATE" with
    | Except.error (PyErr.keyError _) => Except.ok (city, "", "")
    | Except.error e => Except.error e
    | Except.ok state =>
      match dictGet p "POSTALCODE" with
      | Except.error (PyErr.keyError _) => Except.ok (city, state, "")
      | Except.error e => Except.error e
      | Except.ok postalcode => Except.ok (city, state, postalcode)

/-- The country block of `report_cli_fi` (ofxpostern.py lines 220-224). -/
def getCountry (p : List (String × String)) : Except PyErr String :=
  match dictGet p "COUNTRY" with
  | Except.ok c => Except.ok c
  | Except.error (PyErr.keyError _) => Except.ok ""
  | Except.error e => Except.error e

/-- One guarded attempt of `report_cli_server` (ofxpostern.py lines 242-255):
`try: val = d[key]; fi_list.append((label, val)) except KeyError: pass`. -/
def tryKV (d : List (String × String)) (key label : String) :
    Except PyErr (List (String × String)) :=
  match dictGet d key with
  | Except.ok v => Except.ok [(label, v)]
  | Except.error (PyErr.keyError _) => Except.ok []
  | Except.error e => Except.error e

/-- `report_cli_fi` (ofxpostern.py lines 186-230) as the list of lines it
prints. -/
def report_cli_fi (profrs : OFXFile) : Except PyErr (List String) :=
  match print_header "Financial Institution" 2 with
  | Except.error e => Except.error e
  | Except.ok hdr =>
    match fiAttemptLoop profrs.profile fiOutput [] with
    | Except.error e => Except.error e
    | Except.ok fiList0 =>
      match cityStatePostal profrs.profile with
      | Except.error e => Except.error e
      | Except.ok (city, state, postalcode) =>
        match getCountry profrs.profile with
        | Except.error e => Except.error e
        | Except.ok country =>
          let fiList := fiList0 ++
            [("", city ++ ", " ++ state ++ " " ++ postalcode)] ++ [("", country)]
          Except.ok (hdr ++ [""] ++ print_kv_list fiList ++ [""])

/-- `report_cli_server` (ofxpostern.py lines 233-259) as the list of lines it
prints. -/
def report_cli_server (profrs : OFXFile) : Except PyErr (List String) :=
  match print_header "OFX Server" 2 with
  | Except.error e => Except.error e
  | Except.ok hdr =>
    match tryKV profrs.signon "FID" "FID" with
    | Except.error e => Except.error e
    | Except.ok l1 =>
      match tryKV profrs.signon "ORG" "ORG" with
      | Except.error e => Except.error e
      | Except.ok l2 =>
        match tryKV profrs.profile "OFXURL" "URL" with
        | Except.error e => Except.error e
        | Except.ok l3 =>
          Except.ok (hdr ++ [""] ++ print_kv_list (l1 ++ l2 ++ l3) ++ [""])

/-- `report_cli` (ofxpostern.py lines 262-267). -/
def report_cli (profrs : OFXFile) : Except PyErr (List String) :=
  match report_cli_fi profrs with
  | Except.error e => Except.error e
  | Except.ok a =>
    match report_cli_server profrs with
    | Except.error e => Except.error e
    | Except.ok b => Except.ok (a ++ b)

def exceptDecEq {ε α : Type} [DecidableEq ε] [DecidableEq α] :
    DecidableEq (Except ε α)
  | Except.ok a, Except.ok b =>
    if h : a = b then isTrue (by rw [h])
    else isFalse (fun hc => h (Except.ok.inj hc))
  | Except.ok _, Except.error _ => isFalse (fun hc => Except.noConfusion hc)
  | Except.error _, Except.ok _ => isFalse (fun hc => Except.noConfusion hc)
  | Except.error e, Except.error f =>
    if h : e = f then isTrue (by rw [h])
    else isFalse (fun hc => h (Except.error.inj hc))

instance {ε α : Type} [DecidableEq ε] [DecidableEq α] :
    DecidableEq (Except ε α) := exceptDecEq

/-! ## Session orchestrator (ofxpostern.py lines 166-183 and 270-304) -/

/-- `STR_HEADERS = 'headers'` (ofxpostern.py line 92). -/
def STR_HEADERS : String := "headers"

/-- `STR_BODY = 'body'` (ofxpostern.py line 93). -/
def STR_BODY : String := "body"

/-- Python's single-character `str.replace(c, d)` at the string level. -/
def pyReplaceChar (s : String) (c d : Char) : String :=
  ⟨replaceChar c d s.data⟩

/-- Modelled from the spec: the Protocol Client Adapter's `Response`
(`sendRequest(name, identity) -> { headers: ordered pairs, text: string }`),
owned by the excluded protocol library and absent from src/. -/
structure Response where
  headers : List (String × String)
  text : String
deriving DecidableEq

/-- Modelled from the spec: `json.dumps(dict(res.headers))` is only described
as "a structured text encoding (key/value mapping serialization)"; the exact
encoding is irrelevant to the claims. -/
def serializeHeaders (hs : List (String × String)) : String :=
  String.intercalate "\n" (hs.map (fun p => p.1 ++ ": " ++ p.2))

/-- The observable effects of one session: how many times the adapter was
invoked, the cache files written (path, content), the in-memory result
registry `req_results`, and the lines printed to stdout. -/
structure SessState where
  adapterCalls : Nat
  filesWritten : List (String × String)
  reqResults : List (String × Response)
  output : List String
deriving DecidableEq

/-- `send_profile_req` (ofxpostern.py lines 166-183). The adapter call
`otc.send_req(req_name, server)` is modelled from the spec as a value
`sendResult` that is either a `Response` or a transport error; an error
propagates uncaught, carrying the effects so far. On success the two cache
artifacts are written and the response is inserted into the result
registry. -/
def send_profile_req (fd reqName : String) (sendResult : Except PyErr Response)
    (st : SessState) : Except (PyErr × SessState) SessState :=
  let st1 := { st with adapterCalls := st.adapterCalls + 1 }
  match sendResult with
  | Except.error e => Except.error (e, st1)
  | Except.ok res =>
    let base := pyReplaceChar (pyReplaceChar reqName '/' '+') ' ' '_'
    Except.ok { st1 with
      filesWritten := st1.filesWritten ++
        [(fd ++ "/" ++ base ++ "-" ++ STR_HEADERS, serializeHeaders res.headers),
         (fd ++ "/" ++ base ++ "-" ++ STR_BODY, res.text)],
      reqResults := st1.reqResults ++ [(reqName, res)] }

/-- `main` (ofxpostern.py lines 270-304) from `init(server)` onward, for an
already-parsed identity: derive the cache directory, print the banner and
progress lines, send the profile request (writing the cache artifacts and the
result registry), then parse the stored response text (the parser
`testofx.OFXFile` is modelled from the spec as a parameter) and print the
report. Timestamps are parameters; any uncaught error terminates the run,
carrying the effects up to that point. -/
def run (home url fid org reqName tStart tEnd : String)
    (sendResult : Except PyErr Response) (parse : String → OFXFile) :
    Except (PyErr × SessState) SessState :=
  let fd := fiDir home url fid org
  let st1 : SessState :=
    ⟨0, [], [],
      ["ofxpostern: version 0.0.1", "", "Start: " ++ tStart,
       "  Sending <PROFRQ>"]⟩
  match send_profile_req fd reqName sendResult st1 with
  | Except.error es => Except.error es
  | Except.ok st2 =>
    let st3 := { st2 with output := st2.output ++ ["End:   " ++ tEnd, ""] }
    match st3.reqResults.lookup reqName with
    | none => Except.error (PyErr.keyError reqName, st3)
    | some res =>
      match report_cli (parse res.text) with
      | Except.error e => Except.error (e, st3)
      | Except.ok lines => Except.ok { st3 with output := st3.output ++ lines }

/-! ## Theorems -/

theorem afterFirst_append (pre post : List Char) (c : Char) (h : c ∉ pre) :
    afterFirst (pre ++ c :: post) c = post := by
  induction pre with
  | nil => simp [afterFirst]
  | cons x xs ih =>
    have hx : x ≠ c := fun hxc => h (hxc ▸ List.mem_cons_self x xs)
    have hxs : c ∉ xs := fun hm => h (List.mem_cons_of_mem x hm)
    simp [afterFirst, hx, ih hxs]

theorem data_append (a b : String) : (a ++ b).data = a.data ++ b.data := by
  cases a; cases b; rfl

theorem string_append_assoc (a b c : String) : a ++ b ++ c = a ++ (b ++ c) := by
  apply String.ext
  simp [data_append]

theorem not_mem_replaceChar (c d : Char) (l : List Char) (h : d ≠ c) :
    c ∉ replaceChar c d l := by
  intro hmem
  obtain ⟨x, _, hx⟩ := List.mem_map.1 hmem
  by_cases hxc : x = c
  · rw [if_pos hxc] at hx
    exact h hx
  · rw [if_neg hxc] at hx
    exact hxc hx

theorem not_mem_replaceChar_of (a b c : Char) (l : List Char) (hb : b ≠ c)
    (h : c ∉ l) : c ∉ replaceChar a b l := by
  intro hmem
  obtain ⟨x, hxl, hx⟩ := List.mem_map.1 hmem
  by_cases hxa : x = a
  · rw [if_pos hxa] at hx
    exact hb hx
  · rw [if_neg hxa] at hx
    exact h (hx ▸ hxl)

theorem slash_not_mem_urlFname (url : String) : '/' ∉ (urlFname url).data :=
  not_mem_replaceChar_of '&' '+' '/' _ (by decide)
    (not_mem_replaceChar '/' '_' _ (by decide))

/-- C1: for every url, fid, org, the derived cache directory path equals the
fixed base directory (`FIS_DIR`) joined with the segment
`<transformed>-<fid>-<org>`, where `<transformed>` is obtained from the url by
taking everything after the first `/` (here witnessed by the decomposition
`url = pre ++ "/" ++ post` with no `/` in `pre`), stripping the leading
character of that remainder, replacing every `/` with `_` and every `&` with
`+`; the derivation `fiDir` is a pure function of its inputs. -/
theorem c1_cache_dir_derivation (home url fid org : String)
    (pre post : List Char) (hpre : '/' ∉ pre)
    (hurl : url.data = pre ++ '/' :: post) :
    fiDir home url fid org =
      FIS_DIR home ++ "/" ++
        (⟨replaceChar '&' '+' (replaceChar '/' '_' (post.drop 1))⟩ : String) ++
        "-" ++ fid ++ "-" ++ org := by
  apply String.ext
  simp [fiDir, fiSegment, urlFname, data_append, List.append_assoc, hurl,
    afterFirst_append pre post '/' hpre]

theorem c1_cache_dir_derivation_witness :
    ('/' ∉ "https:".data) ∧
    ("https://x.com/a&b".data = "https:".data ++ '/' :: "/x.com/a&b".data) ∧
    fiDir "h" "https://x.com/a&b" "f" "o" =
      FIS_DIR "h" ++ "/" ++
        (⟨replaceChar '&' '+'
          (replaceChar '/' '_' ("/x.com/a&b".data.drop 1))⟩ : String) ++
        "-" ++ "f" ++ "-" ++ "o" :=
  ⟨by decide, by decide,
    c1_cache_dir_derivation "h" "https://x.com/a&b" "f" "o"
      "https:".data "/x.com/a&b".data (by decide) (by decide)⟩

theorem dash_split (a : List Char) : ∀ (b c d : List Char), '-' ∉ a → '-' ∉ b →
    a ++ '-' :: c = b ++ '-' :: d → a = b ∧ c = d := by
  induction a with
  | nil =>
    intro b c d _ hb h
    cases b with
    | nil => simpa using h
    | cons y ys =>
      injection h with h1 _
      exact absurd (h1 ▸ List.mem_cons_self y ys) hb
  | cons x xs ih =>
    intro b c d ha hb h
    cases b with
    | nil =>
      injection h with h1 _
      exact absurd (h1 ▸ List.mem_cons_self x xs) ha
    | cons y ys =>
      injection h with h1 h2
      have ha' : '-' ∉ xs := fun hm => ha (List.mem_cons_of_mem x hm)
      have hb' : '-' ∉ ys := fun hm => hb (List.mem_cons_of_mem y hm)
      obtain ⟨e1, e2⟩ := ih ys c d ha' hb' h2
      exact ⟨by rw [h1, e1], e2⟩

/-- C2 counterexample: the cache-key derivation is not injective in fid/org
for a fixed url — the pairs `("x-y", "z")` and `("x", "y-z")` differ yet yield
the same cache key. -/
theorem c2_counterexample :
    fiDir "h" "a/b" "x-y" "z" = fiDir "h" "a/b" "x" "y-z" ∧
    (("x-y", "z") : String × String) ≠ ("x", "y-z") := by
  constructor
  · decide
  · decide

/-- C2 (amended): the cache-key derivation is deterministic, and for a fixed
url it is injective in fid/org provided the fid values contain no `-`
character: under that restriction the derived keys are equal exactly when the
(fid, org) pairs are equal. -/
theorem c2_amended_deterministic_injective (home url fid1 org1 fid2 org2 : String)
    (h1 : '-' ∉ fid1.data) (h2 : '-' ∉ fid2.data) :
    fiDir home url fid1 org1 = fiDir home url fid2 org2 ↔
      fid1 = fid2 ∧ org1 = org2 := by
  constructor
  · intro h
    have hd : (fiDir home url fid1 org1).data = (fiDir home url fid2 org2).data := by
      rw [h]
    simp only [fiDir, fiSegment, data_append, List.append_assoc] at hd
    have hd1 := List.append_cancel_left hd
    have hd2 := List.append_cancel_left hd1
    have hd3 := List.append_cancel_left hd2
    have hd4 := List.append_cancel_left hd3
    simp only [List.cons_append, List.nil_append] at hd4
    obtain ⟨e1, e2⟩ := dash_split fid1.data fid2.data org1.data org2.data h1 h2 hd4
    exact ⟨String.ext e1, String.ext e2⟩
  · rintro ⟨rfl, rfl⟩
    rfl

theorem c2_amended_deterministic_injective_witness :
    ('-' ∉ "f1".data) ∧ ('-' ∉ "f2".data) ∧
    (fiDir "h" "https://x.com/ofx" "f1" "o1" = fiDir "h" "https://x.com/ofx" "f2" "o1" ↔
      "f1" = "f2" ∧ "o1" = "o1") :=
  ⟨by decide, by decide,
    c2_amended_deterministic_injective "h" "https://x.com/ofx" "f1" "o1" "f2" "o1"
      (by decide) (by decide)⟩

/-- C3 counterexample: for the url `https://x.com/ofx` (which has a `/` after
the scheme) and the fid `a/b` — interpolated verbatim — the derived
per-identity path segment does contain a `/` character. -/
theorem c3_counterexample :
    '/' ∈ afterFirst "https://x.com/ofx".data '/' ∧
    '/' ∈ (fiSegment "https://x.com/ofx" "a/b" "").data := by
  constructor
  · decide
  · decide

/-- C3 (amended): for every url containing at least one `/` after the scheme,
and for every fid and org that themselves contain no `/` character, the
derived per-identity path segment contains no `/` characters. -/
theorem c3_amended_no_slash (url fid org : String)
    (hurl : '/' ∈ afterFirst url.data '/')
    (hfid : '/' ∉ fid.data) (horg : '/' ∉ org.data) :
    '/' ∉ (fiSegment url fid org).data := by
  intro hmem
  simp only [fiSegment, data_append, List.append_assoc, List.mem_append] at hmem
  rcases hmem with h | h | h | h | h
  · exact slash_not_mem_urlFname url h
  · simp at h
  · exact hfid h
  · simp at h
  · exact horg h

theorem c3_amended_no_slash_witness :
    ('/' ∈ afterFirst "https://x.com/ofx".data '/') ∧
    ('/' ∉ "f".data) ∧ ('/' ∉ "o".data) ∧
    '/' ∉ (fiSegment "https://x.com/ofx" "f" "o").data :=
  ⟨by decide, by decide, by decide,
    c3_amended_no_slash "https://x.com/ofx" "f" "o" (by decide) (by decide) (by decide)⟩

theorem slen_append (a b : String) : (a ++ b).length = a.length + b.length := by
  cases a; cases b
  show List.length (_ ++ _) = _
  simp [String.length]

theorem fiAttemptLoop_ok (p : List (String × String)) :
    ∀ (spec acc : List (String × String)),
    fiAttemptLoop p spec acc =
      Except.ok (acc ++ spec.filterMap
        (fun t => (p.lookup t.1).map (fun v => (t.2, v)))) := by
  intro spec
  induction spec with
  | nil => intro acc; simp [fiAttemptLoop]
  | cons t rest ih =>
    intro acc
    rw [fiAttemptLoop.eq_def]
    cases h : p.lookup t.1 with
    | none => simp [dictGet, h, ih, List.filterMap_cons]
    | some v => simp [dictGet, h, ih, List.filterMap_cons]

theorem cityStatePostal_eq (p : List (String × String)) :
    cityStatePostal p = Except.ok
      ((p.lookup "CITY").getD "",
       (if (p.lookup "CITY").isSome then (p.lookup "STATE").getD "" else ""),
       (if (p.lookup "CITY").isSome ∧ (p.lookup "STATE").isSome
          then (p.lookup "POSTALCODE").getD "" else "")) := by
  cases hc : p.lookup "CITY" with
  | none => simp [cityStatePostal, dictGet, hc]
  | some c =>
    cases hs : p.lookup "STATE" with
    | none => simp [cityStatePostal, dictGet, hc, hs]
    | some s =>
      cases hq : p.lookup "POSTALCODE" with
      | none => simp [cityStatePostal, dictGet, hc, hs, hq]
      | some q => simp [cityStatePostal, dictGet, hc, hs, hq]

theorem getCountry_eq (p : List (String × String)) :
    getCountry p = Except.ok ((p.lookup "COUNTRY").getD "") := by
  cases h : p.lookup "COUNTRY" with
  | none => simp [getCountry, dictGet, h]
  | some c => simp [getCountry, dictGet, h]

theorem tryKV_eq (d : List (String × String)) (key label : String) :
    tryKV d key label =
      Except.ok (((d.lookup key).map (fun v => (label, v))).toList) := by
  cases h : d.lookup key with
  | none => simp [tryKV, dictGet, h]
  | some v => simp [tryKV, dictGet, h]

theorem report_cli_fi_eq (profrs : OFXFile) :
    report_cli_fi profrs = Except.ok
      (["Financial Institution", ⟨List.replicate 21 '='⟩] ++ [""] ++
        print_kv_list
          (fiOutput.filterMap
            (fun t => (profrs.profile.lookup t.1).map (fun v => (t.2, v))) ++
           [("",
             ((profrs.profile.lookup "CITY").getD "") ++ ", " ++
             (if (profrs.profile.lookup "CITY").isSome
               then (profrs.profile.lookup "STATE").getD "" else "") ++ " " ++
             (if (profrs.profile.lookup "CITY").isSome ∧
                 (profrs.profile.lookup "STATE").isSome
               then (profrs.profile.lookup "POSTALCODE").getD "" else ""))] ++
           [("", (profrs.profile.lookup "COUNTRY").getD "")]) ++ [""]) := by
  have hh : print_header "Financial Institution" 2 =
      Except.ok ["Financial Institution", ⟨List.replicate 21 '='⟩] := rfl
  rw [report_cli_fi, hh, fiAttemptLoop_ok profrs.profile fiOutput [],
    cityStatePostal_eq, getCountry_eq]
  simp

theorem report_cli_server_eq (profrs : OFXFile) :
    report_cli_server profrs = Except.ok
      (["OFX Server", ⟨List.replicate 10 '='⟩] ++ [""] ++
        print_kv_list
          (((profrs.signon.lookup "FID").map (fun v => ("FID", v))).toList ++
           ((profrs.signon.lookup "ORG").map (fun v => ("ORG", v))).toList ++
           ((profrs.profile.lookup "OFXURL").map (fun v => ("URL", v))).toList) ++
        [""]) := by
  have hh : print_header "OFX Server" 2 =
      Except.ok ["OFX Server", ⟨List.replicate 10 '='⟩] := rfl
  rw [report_cli_server, hh, tryKV_eq, tryKV_eq, tryKV_eq]

/-- C4 counterexample: for a profile containing STATE and POSTALCODE but no
CITY, the institution block renders the combined line with all three values
empty (`": ,  "`), not with the present STATE/POSTALCODE substituted — the
three lookups are not independent. The line `": , NY 10001"` predicted by
independent substitution does not appear. -/
theorem c4_counterexample :
    report_cli_fi ⟨[], [("STATE", "NY"), ("POSTALCODE", "10001")]⟩ =
      Except.ok ["Financial Institution", "=====================", "",
        ": ,  ", ": ", ""] ∧
    ": , NY 10001" ∉
      ["Financial Institution", "=====================", "", ": ,  ", ": ", ""] := by
  constructor
  · decide
  · decide

/-- C4 (amended): for every ProfileResponse, the institution block
unconditionally renders one line combining CITY, STATE and POSTALCODE in the
fixed format `"{city}, {state} {postalcode}"` — where CITY is substituted with
the empty string when absent, STATE's value is used only when CITY is present
(empty otherwise), and POSTALCODE's value only when both CITY and STATE are
present — followed by one line for COUNTRY (independently empty when absent);
these two lines are emitted even when all the underlying values are absent. -/
theorem c4_amended_institution_lines (profrs : OFXFile) :
    report_cli_fi profrs = Except.ok
      (["Financial Institution", ⟨List.replicate 21 '='⟩] ++ [""] ++
        print_kv_list
          (fiOutput.filterMap
            (fun t => (profrs.profile.lookup t.1).map (fun v => (t.2, v))) ++
           [("",
             ((profrs.profile.lookup "CITY").getD "") ++ ", " ++
             (if (profrs.profile.lookup "CITY").isSome
               then (profrs.profile.lookup "STATE").getD "" else "") ++ " " ++
             (if (profrs.profile.lookup "CITY").isSome ∧
                 (profrs.profile.lookup "STATE").isSome
               then (profrs.profile.lookup "POSTALCODE").getD "" else ""))] ++
           [("", (profrs.profile.lookup "COUNTRY").getD "")]) ++ [""]) :=
  report_cli_fi_eq profrs

/-- C5: the server block attempts exactly signon.FID ("FID"), signon.ORG
("ORG"), profile.OFXURL ("URL") in that order, emitting no line for an absent
key: with FID "1001", no ORG, and OFXURL "https://ofx.example.com" it renders
exactly the two lines `FID: 1001` and `URL: https://ofx.example.com`; and the
section header renders even when all three fields are absent. -/
theorem c5_server_block :
    (∀ profrs : OFXFile, report_cli_server profrs = Except.ok
      (["OFX Server", "=========="] ++ [""] ++
        print_kv_list
          (((profrs.signon.lookup "FID").map (fun v => ("FID", v))).toList ++
           ((profrs.signon.lookup "ORG").map (fun v => ("ORG", v))).toList ++
           ((profrs.profile.lookup "OFXURL").map (fun v => ("URL", v))).toList) ++
        [""])) ∧
    (∀ profrs : OFXFile,
      profrs.signon.lookup "FID" = some "1001" →
      profrs.signon.lookup "ORG" = none →
      profrs.profile.lookup "OFXURL" = some "https://ofx.example.com" →
      report_cli_server profrs =
        Except.ok ["OFX Server", "==========", "", "FID: 1001",
          "URL: https://ofx.example.com", ""]) ∧
    (∀ profrs : OFXFile,
      profrs.signon.lookup "FID" = none →
      profrs.signon.lookup "ORG" = none →
      profrs.profile.lookup "OFXURL" = none →
      report_cli_server profrs = Except.ok ["OFX Server", "==========", "", ""]) := by
  refine ⟨?_, ?_, ?_⟩
  · intro profrs
    rw [report_cli_server_eq]
    rfl
  · intro profrs h1 h2 h3
    rw [report_cli_server_eq, h1, h2, h3]
    decide
  · intro profrs h1 h2 h3
    rw [report_cli_server_eq, h1, h2, h3]
    decide

theorem c5_server_block_witness :
    (List.lookup "FID" [("FID", "1001")] = some "1001") ∧
    (List.lookup "ORG" [("FID", "1001")] = none) ∧
    (List.lookup "OFXURL" [("OFXURL", "https://ofx.example.com")] =
      some "https://ofx.example.com") ∧
    report_cli_server ⟨[("FID", "1001")], [("OFXURL", "https://ofx.example.com")]⟩ =
      Except.ok ["OFX Server", "==========", "", "FID: 1001",
        "URL: https://ofx.example.com", ""] ∧
    report_cli_server ⟨[], []⟩ = Except.ok ["OFX Server", "==========", "", ""] :=
  ⟨by decide, by decide, by decide,
    c5_server_block.2.1 ⟨[("FID", "1001")], [("OFXURL", "https://ofx.example.com")]⟩
      (by decide) (by decide) (by decide),
    c5_server_block.2.2 ⟨[], []⟩ (by decide) (by decide) (by decide)⟩

/-- C8: for every ProfileResponse, whatever subset of the optional keys its
signon and profile mappings contain, rendering the full report succeeds —
every optional-field lookup in both blocks is guarded, so no KeyError (and no
other exception) escapes `report_cli`. -/
theorem c8_report_never_raises (profrs : OFXFile) :
    ∃ lines, report_cli profrs = Except.ok lines := by
  rw [report_cli, report_cli_fi_eq, report_cli_server_eq]
  exact ⟨_, rfl⟩

/-- C9: the CITY/STATE/POSTALCODE lookups are coupled, not independent: with
CITY absent the combined values are all empty whatever STATE and POSTALCODE
hold; with CITY present but STATE absent, STATE and POSTALCODE render empty;
with CITY and STATE present but POSTALCODE absent, only POSTALCODE is empty. -/
theorem c9_coupled_city_state_postal (p : List (String × String)) :
    (p.lookup "CITY" = none → cityStatePostal p = Except.ok ("", "", "")) ∧
    (∀ c, p.lookup "CITY" = some c → p.lookup "STATE" = none →
      cityStatePostal p = Except.ok (c, "", "")) ∧
    (∀ c s, p.lookup "CITY" = some c → p.lookup "STATE" = some s →
      p.lookup "POSTALCODE" = none → cityStatePostal p = Except.ok (c, s, "")) := by
  refine ⟨?_, ?_, ?_⟩
  · intro hc
    simp [cityStatePostal, dictGet, hc]
  · intro c hc hs
    simp [cityStatePostal, dictGet, hc, hs]
  · intro c s hc hs hq
    simp [cityStatePostal, dictGet, hc, hs, hq]

theorem c9_coupled_city_state_postal_witness :
    (List.lookup "CITY" [("STATE", "NY"), ("POSTALCODE", "10001")] = none) ∧
    cityStatePostal [("STATE", "NY"), ("POSTALCODE", "10001")] =
      Except.ok ("", "", "") :=
  ⟨by decide,
    (c9_coupled_city_state_postal [("STATE", "NY"), ("POSTALCODE", "10001")]).1
      (by decide)⟩

theorem foldl_max_init_le (l : List (String × String)) (w : Nat) :
    w ≤ l.foldl (fun a q => max a q.1.length) w := by
  induction l generalizing w with
  | nil => simp
  | cons x xs ih => exact le_trans (le_max_left _ _) (ih _)

theorem foldl_max_mem_le (l : List (String × String)) :
    ∀ (w : Nat) (p : String × String), p ∈ l →
      p.1.length ≤ l.foldl (fun a q => max a q.1.length) w := by
  induction l with
  | nil => intro w p hp; cases hp
  | cons x xs ih =>
    intro w p hp
    rcases List.mem_cons.1 hp with h | h
    · subst h
      exact le_trans (le_max_right _ _) (foldl_max_init_le xs _)
    · exact ih _ p h

theorem foldl_max_attained (l : List (String × String)) :
    ∀ w : Nat, l.foldl (fun a q => max a q.1.length) w = w ∨
      ∃ p ∈ l, l.foldl (fun a q => max a q.1.length) w = p.1.length := by
  induction l with
  | nil => intro w; left; rfl
  | cons x xs ih =>
    intro w
    rcases ih (max w x.1.length) with h | ⟨p, hp, he⟩
    · rcases max_choice w x.1.length with hm | hm
      · left
        rw [List.foldl_cons, h, hm]
      · right
        exact ⟨x, List.mem_cons_self x xs, by rw [List.foldl_cons, h, hm]⟩
    · right
      exact ⟨p, List.mem_cons_of_mem x hp, by rw [List.foldl_cons]; exact he⟩

theorem kWidth_eq_foldl_max (l : List (String × String)) :
    kWidth l = l.foldl (fun a q => max a q.1.length) 0 := by
  have hf : (fun (w : Nat) (p : String × String) =>
      if p.1.length > w then p.1.length else w) =
      fun a q => max a q.1.length := by
    funext w p
    split <;> omega
  rw [kWidth, hf]

theorem kWidth_le (l : List (String × String)) (p : String × String)
    (hp : p ∈ l) : p.1.length ≤ kWidth l := by
  rw [kWidth_eq_foldl_max]
  exact foldl_max_mem_le l 0 p hp

theorem kWidth_attained (l : List (String × String)) (h : l ≠ []) :
    ∃ p ∈ l, p.1.length = kWidth l := by
  rw [kWidth_eq_foldl_max]
  rcases foldl_max_attained l 0 with h0 | ⟨p, hp, he⟩
  · cases l with
    | nil => exact absurd rfl h
    | cons x xs =>
      refine ⟨x, List.mem_cons_self x xs, ?_⟩
      have hx := foldl_max_mem_le (x :: xs) 0 x (List.mem_cons_self x xs)
      omega
  · exact ⟨p, hp, he.symm⟩

/-- C6: for every non-empty key/value list, there is a width W — the length of
the longest label, attained by some pair — such that each output line is the
label with `:` appended, right-padded with spaces to W + 1 characters,
followed by a single space and the value; lines appear in call order. -/
theorem c6_kv_formatting (kvList : List (String × String)) (hne : kvList ≠ []) :
    ∃ W : Nat, (∀ p ∈ kvList, p.1.length ≤ W) ∧
      (∃ p ∈ kvList, p.1.length = W) ∧
      print_kv_list kvList = kvList.map (fun p =>
        p.1 ++ ":" ++ (⟨List.replicate (W - p.1.length) ' '⟩ : String) ++
        " " ++ p.2) := by
  refine ⟨kWidth kvList, fun p hp => kWidth_le kvList p hp,
    kWidth_attained kvList hne, ?_⟩
  rw [print_kv_list]
  apply List.map_congr_left
  intro p _
  rw [ljust]
  have hl : (p.1 ++ ":").length = p.1.length + 1 := by
    rw [slen_append]
    rfl
  have hw : kWidth kvList + 1 - (p.1 ++ ":").length =
      kWidth kvList - p.1.length := by
    rw [hl]
    omega
  rw [hw]

theorem c6_kv_formatting_witness :
    (([("FID", "1001"), ("URL", "u")] : List (String × String)) ≠ []) ∧
    ∃ W : Nat, (∀ p ∈ ([("FID", "1001"), ("URL", "u")] : List (String × String)),
        p.1.length ≤ W) ∧
      (∃ p ∈ ([("FID", "1001"), ("URL", "u")] : List (String × String)),
        p.1.length = W) ∧
      print_kv_list [("FID", "1001"), ("URL", "u")] =
        ([("FID", "1001"), ("URL", "u")] : List (String × String)).map (fun p =>
          p.1 ++ ":" ++ (⟨List.replicate (W - p.1.length) ' '⟩ : String) ++
          " " ++ p.2) :=
  ⟨by decide, c6_kv_formatting [("FID", "1001"), ("URL", "u")] (by decide)⟩

/-- C10: every rendered key/value line prints the key with `:` appended before
padding — each line starts with the key followed immediately by `:` — and for
a pair whose key is the empty string the line begins with a lone `:`. -/
theorem c10_colon_before_padding (kvList : List (String × String)) (k v : String)
    (h : (k, v) ∈ kvList) :
    ∃ line ∈ print_kv_list kvList,
      line.data.take (k.length + 1) = k.data ++ [':'] ∧
      (k = "" → line.data.head? = some ':') := by
  refine ⟨ljust (k ++ ":") (kWidth kvList + 1) ++ " " ++ v,
    List.mem_map.2 ⟨(k, v), h, rfl⟩, ?_, ?_⟩
  · have hdata : (ljust (k ++ ":") (kWidth kvList + 1) ++ " " ++ v).data =
        k.data ++ ':' ::
          (List.replicate (kWidth kvList + 1 - (k ++ ":").length) ' ' ++
            ' ' :: v.data) := by
      simp [ljust, data_append]
    rw [hdata]
    have hk : k.length + 1 = k.data.length + 1 := by
      rw [String.length]
    rw [hk]
    have h2 : (k.data ++ ':' ::
          (List.replicate (kWidth kvList + 1 - (k ++ ":").length) ' ' ++
            ' ' :: v.data)).take (k.data.length + 1) =
        k.data ++ (':' ::
          (List.replicate (kWidth kvList + 1 - (k ++ ":").length) ' ' ++
            ' ' :: v.data)).take 1 := List.take_append 1
    simpa using h2
  · intro hk
    subst hk
    have hdata : (ljust ("" ++ ":") (kWidth kvList + 1) ++ " " ++ v).data =
        ':' :: (List.replicate (kWidth kvList + 1 - ("" ++ ":" : String).length) ' ' ++
          ' ' :: v.data) := by
      simp [ljust, data_append]
    rw [hdata]
    rfl

theorem c10_colon_before_padding_witness :
    ((("" : String), ("x" : String)) ∈ ([("", "x")] : List (String × String))) ∧
    ∃ line ∈ print_kv_list [("", "x")],
      line.data.take (("" : String).length + 1) = ("" : String).data ++ [':'] ∧
      (("" : String) = "" → line.data.head? = some ':') :=
  ⟨by decide, c10_colon_before_padding [("", "x")] "" "x" (by decide)⟩

/-- C7: if the adapter's sendRequest raises a transport error, the session run
terminates with that same error after exactly one adapter call, having written
no cache artifact (neither `-headers` nor `-body`), inserted nothing into the
result registry, and printed only the banner and progress lines — no part of
the report. -/
theorem c7_transport_error_aborts (home url fid org reqName tStart tEnd : String)
    (parse : String → OFXFile) (e : PyErr) :
    run home url fid org reqName tStart tEnd (Except.error e) parse =
      Except.error (e,
        ⟨1, [], [],
         ["ofxpostern: version 0.0.1", "", "Start: " ++ tStart,
          "  Sending <PROFRQ>"]⟩) :=
  rfl

end Ofxpostern
